import Mathlib

/-!
Shallow embedding of the xmtpserver repository (src/xmtp-listener.js, which
concatenates the Redis bus listener and the XMTP service module) together with
theorems settling the specification claims about it.

Modelling conventions:
* JavaScript exceptions are modelled by `Except String`, the string being the
  exception message (`error.message` / `String(error)`).
* The third-party SDK surface (`@xmtp/node-sdk` client, `viem` accounts, the
  Redis client, `JSON.parse`, `fs`) is an opaque collaborator: its behaviour at
  each call site is a parameter of the embedding (fields of `Client` / `World`,
  or explicit function arguments), so a theorem quantifying over those
  parameters covers every possible SDK behaviour.
* `process.env` and the `.env` fallback file are explicit arguments.
* Calls the relay pipeline makes to the capability check, conversation
  creation and send are recorded in a trace (`List SdkCall`) so that claims of
  the form "no creation call is made" are statements about the trace.
-/

namespace Xmtp

/-- JS `String.prototype.startsWith`, embedded on the character lists of Lean
strings (same semantics: the pattern is a prefix of the string). -/
def jsStartsWith (s p : String) : Bool :=
  p.data.isPrefixOf s.data

/-- JS `String.prototype.toLowerCase` (ASCII case folding, which is all the
hex addresses and identifiers at play use). -/
def jsToLower (s : String) : String :=
  ⟨s.data.map Char.toLower⟩

/-- Splitting a character list at every occurrence of a separator character
(JS `String.prototype.split` with a one-character separator, which is the only
form the source uses: `split("\n")` and `split("=")`). -/
def splitOnChar (sep : Char) : List Char → List (List Char)
  | [] => [[]]
  | c :: rest =>
    if c == sep then [] :: splitOnChar sep rest
    else
      match splitOnChar sep rest with
      | [] => [[c]]
      | h :: t => (c :: h) :: t

/-- JS `String.prototype.split` with a one-character separator, on strings. -/
def jsSplitChar (sep : Char) (s : String) : List String :=
  (splitOnChar sep s.data).map (fun l => ⟨l⟩)

/-- Drop leading whitespace characters. -/
def dropLeadingWs : List Char → List Char
  | [] => []
  | c :: rest => if c.isWhitespace then dropLeadingWs rest else c :: rest

/-- JS `String.prototype.trim`: strip whitespace from both ends. -/
def jsTrim (s : String) : String :=
  ⟨(dropLeadingWs ((dropLeadingWs s.data.reverse).reverse))⟩

/-- JS `Array.prototype.join(sep)`. -/
def joinWith (sep : String) : List String → String
  | [] => ""
  | [x] => x
  | x :: y :: xs => x ++ sep ++ joinWith sep (y :: xs)

/-- JS truthiness of a `string | undefined` value (`!process.env[v]`,
`if (envVars[v])`): `undefined` and the empty string are falsy. -/
def envTruthy : Option String → Bool
  | none => false
  | some s => s != ""

/-! ## Bus listener (`EthereumRedisListener`, src/xmtp-listener.js lines 53-70) -/

/-- The JSON payload shape expected on the bus channel. -/
structure EthereumMessage where
  ethereumAddress : String
  message : String
  deriving DecidableEq

/-- Observable actions of the per-message handler: console logging and (were it
ever performed) an invocation of the relay pipeline. -/
inductive ListenerAction where
  | log (line : String)
  | logError (line : String)
  | relay (ethereumAddress message : String)
  deriving DecidableEq

/-- Is this action an invocation of the relay pipeline? -/
def ListenerAction.isRelay : ListenerAction → Bool
  | .relay _ _ => true
  | _ => false

/-- A run of n "equals" characters, as used by the handler's log banners. -/
def eqBar (n : Nat) : String :=
  ⟨List.replicate n (Char.ofNat 61)⟩

/-- `EthereumRedisListener.handleMessage(message, channel)`: logs a header, the
raw message, then tries `JSON.parse`; on success logs the parsed object, on
failure logs the parse error; finally logs a footer.  `parseJson` stands for
`JSON.parse` restricted to the expected payload shape and `stringify` for
`JSON.stringify(..., null, 2)`; `receivedAt` is `new Date().toISOString()`.
The handler performs no other action: in particular it never emits a
`ListenerAction.relay`. -/
def handleMessage (parseJson : String → Except String EthereumMessage)
    (stringify : EthereumMessage → String)
    (receivedAt message channel : String) : List ListenerAction :=
  [ListenerAction.log ("📨 " ++ eqBar 20 ++ " ETHEREUM MESSAGE " ++ eqBar 20),
   ListenerAction.log ("🕒 Received: " ++ receivedAt),
   ListenerAction.log ("📡 Channel: " ++ channel),
   ListenerAction.log ("🔍 RAW MESSAGE: " ++ message)] ++
  (match parseJson message with
   | .ok em => [ListenerAction.log ("🔍 PARSED MESSAGE: " ++ stringify em)]
   | .error e => [ListenerAction.logError ("❌ JSON parsing error: " ++ e)]) ++
  [ListenerAction.log (eqBar 56)]

/-! ## Signer adapter (`createSigner`, src lines 162-180) -/

/-- The identifier object produced by the signer's `getIdentifier`
(`IdentifierKind.Ethereum` is rendered as the tag string "Ethereum"). -/
structure SignerIdentifier where
  identifierKind : String
  identifier : String
  deriving DecidableEq

/-- The signer object returned by `createSigner` (the async `signMessage`
member delegates entirely to the wallet library and is not embedded). -/
structure Signer where
  type : String
  getIdentifier : SignerIdentifier
  deriving DecidableEq

/-- `createSigner(key)`: prepends "0x" when the key lacks it, then derives the
account address.  `privToAddr` stands for viem's `privateKeyToAccount(k).address`,
an opaque pure derivation. -/
def createSigner (privToAddr : String → String) (key : String) : Signer :=
  let sanitizedKey := if jsStartsWith key "0x" then key else "0x" ++ key
  { type := "EOA",
    getIdentifier :=
      { identifierKind := "Ethereum",
        identifier := jsToLower (privToAddr sanitizedKey) } }

/-! ## Environment resolver (`validateEnvironment`, src lines 197-233) -/

/-- A process-environment table: key to `string | undefined`. -/
def Env : Type := String → Option String

/-- One step of the `.env`-file reduce: `const [key, ...val] = line.split("=")`,
keep the assignment when `key` is truthy and at least one "=" occurred, binding
`key.trim()` to `val.join("=").trim()` (later lines overwrite earlier ones). -/
def parseEnvAssign (acc : Env) (line : String) : Env :=
  match jsSplitChar '=' line with
  | key :: v :: vs =>
    if key != "" then
      fun k => if k == jsTrim key then some (jsTrim (joinWith "=" (v :: vs))) else acc k
    else acc
  | _ => acc

/-- Parsing of the fallback `.env` file contents: split on newlines, drop blank
lines and lines starting with "#", fold the assignments. -/
def parseEnvContent (content : String) : Env :=
  ((jsSplitChar '\n' content).filter
      (fun line => (jsTrim line != "") && !(jsStartsWith line "#"))).foldl
    parseEnvAssign (fun _ => none)

/-- The environment after the fallback pass of `validateEnvironment`: when some
required variable is falsy, the `.env` file (when present) back-fills exactly
the still-missing keys whose file value is truthy; `process.env` is otherwise
unchanged.  `envFile = none` models an absent (or unreadable) `.env` file. -/
def backfilledEnv (vars : List String) (env : Env) (envFile : Option String) : Env :=
  let missing := vars.filter (fun v => !envTruthy (env v))
  if missing.isEmpty then env
  else
    let envVars : Env :=
      match envFile with
      | some content => parseEnvContent content
      | none => fun _ => none
    fun k => if missing.any (fun v => v == k) && envTruthy (envVars k) then envVars k else env k

/-- `validateEnvironment(vars)`: `.error names` models
`console.error("Missing env vars:", names.join(", ")); process.exit(1)` and
`.ok mapping` models the returned `vars.reduce` object mapping each required
key to its (post-fallback) `process.env` value. -/
def validateEnvironment (vars : List String) (env : Env) (envFile : Option String) :
    Except (List String) (List (String × Option String)) :=
  let env2 := backfilledEnv vars env envFile
  let stillMissing := vars.filter (fun v => !envTruthy (env2 v))
  if stillMissing.isEmpty then .ok (vars.map (fun k => (k, env2 k)))
  else .error stillMissing

/-- The keys still falsy after the fallback pass: exactly the list printed
before `process.exit(1)`. -/
def stillMissingKeys (vars : List String) (env : Env) (envFile : Option String) : List String :=
  vars.filter (fun v => !envTruthy (backfilledEnv vars env envFile v))

/-! ## The mocked SDK object graph (`@xmtp/node-sdk`) -/

/-- An external identifier attached to an inbox (one entry of
`inboxState.identifiers`). -/
structure Identifier where
  identifier : String
  deriving DecidableEq

/-- One element of the array returned by
`client.preferences.inboxStateFromInboxIds([...])`. -/
structure InboxState where
  identifiers : List Identifier
  deriving DecidableEq

/-- A conversation member (`member.inboxId`). -/
structure Member where
  inboxId : String
  deriving DecidableEq

/-- A conversation handle: its members and the behaviour of
`conversation.send(message)` (returning the sent message id, or throwing).
`convId` only tags the handle so traces can name it. -/
structure Conversation where
  convId : String
  members : List Member
  sendFn : String → Except String String

/-- The SDK client handle: the behaviour of each instance method the service
calls.  `inboxStateFromInboxIds1 i` is
`client.preferences.inboxStateFromInboxIds([i])`. -/
structure Client where
  syncConversations : Except String Unit
  listConversations : Except String (List Conversation)
  inboxStateFromInboxIds1 : String → Except String (List InboxState)
  getDmByInboxId : String → Except String (Option Conversation)
  newDm : String → Except String Conversation

/-- The SDK statics: `Client.create(...)` (with the configured signer,
encryption key, env and db path already applied) and
`Client.canMessage([{identifier, kind}], env)`, an association list keyed by
the queried (lowercased) identifier. -/
structure World where
  createClient : Except String Client
  canMessage : String → Except String (List (String × Bool))

/-! ## Client lifecycle (`XMTPService.initializeClient`, src lines 260-280) -/

/-- `initializeClient()`: returns the cached client when present, otherwise
invokes `Client.create` and caches the result; a construction failure is
re-thrown wrapped as "Failed to initialize XMTP client: ..." and leaves the
cache empty.  The result is (outcome, new cache, number of constructor
invocations performed by this call). -/
def initializeClient (w : World) (cached : Option Client) :
    Except String Client × Option Client × Nat :=
  match cached with
  | some c => (.ok c, some c, 0)
  | none =>
    match w.createClient with
    | .ok c => (.ok c, some c, 1)
    | .error e => (.error ("Failed to initialize XMTP client: " ++ e), none, 1)

/-! ## Address resolution (`XMTPService.getInboxIdFromAddress`, src lines 288-320) -/

/-- Does the first inbox state carry an identifier equal (case-insensitively)
to the address?  (`memberState[0]?.identifiers` with the inner `for` loop.) -/
def stateMatches (address : String) : List InboxState → Bool
  | [] => false
  | st :: _ => st.identifiers.any (fun i => jsToLower i.identifier == jsToLower address)

/-- The inner loop over a conversation's members: fetch each member's inbox
state and return the first member whose identifiers contain the address. -/
def scanMembers (cl : Client) (address : String) : List Member → Except String (Option String)
  | [] => .ok none
  | m :: rest =>
    match cl.inboxStateFromInboxIds1 m.inboxId with
    | .error e => .error e
    | .ok states =>
      if stateMatches address states then .ok (some m.inboxId)
      else scanMembers cl address rest

/-- The outer loop over all known conversations. -/
def scanConversations (cl : Client) (address : String) :
    List Conversation → Except String (Option String)
  | [] => .ok none
  | conv :: rest =>
    match scanMembers cl address conv.members with
    | .error e => .error e
    | .ok (some ibx) => .ok (some ibx)
    | .ok none => scanConversations cl address rest

/-- The body of `getInboxIdFromAddress` up to (not including) its `catch`:
ensure the client, list the conversations, scan them. -/
def getInboxIdFromAddressCore (w : World) (cached : Option Client) (address : String) :
    Except String (Option String) × Option Client :=
  match initializeClient w cached with
  | (.error e, st, _) => (.error e, st)
  | (.ok cl, st, _) =>
    match cl.listConversations with
    | .error e => (.error e, st)
    | .ok convs => (scanConversations cl address convs, st)

/-- `getInboxIdFromAddress(address)`: the whole body is wrapped in
`try/catch`; any exception is logged and converted to `null`. -/
def getInboxIdFromAddress (w : World) (cached : Option Client) (address : String) :
    Option String × Option Client :=
  match getInboxIdFromAddressCore w cached address with
  | (.ok r, st) => (r, st)
  | (.error _, st) => (none, st)

/-! ## Relay pipeline (`XMTPService.sendMessage`, src lines 328-389) -/

/-- `{success, messageId?, error?}` as returned by `sendMessage`; an absent
optional field is `none`. -/
structure RelayResult where
  success : Bool
  messageId : Option String
  error : Option String
  deriving DecidableEq

/-- The traced SDK calls of the relay pipeline: the static capability check,
`conversations.newDm`, and `conversation.send`. -/
inductive SdkCall where
  | canMsg (identifier : String)
  | newDm (address : String)
  | send (convId message : String)
  deriving DecidableEq

/-- `if (recipientInboxId) conversation = await getDmByInboxId(...)`: the
lookup happens only for a truthy (non-empty) inbox id; otherwise the
conversation stays `null`. -/
def resolveConversation (cl : Client) (recipientInboxId : Option String) :
    Except String (Option Conversation) :=
  match recipientInboxId with
  | some ibx => if ibx == "" then .ok none else cl.getDmByInboxId ibx
  | none => .ok none

/-- `const sentMessage = await conversation.send(message)` followed by the
success return `{success: true, messageId: sentMessage.id}` (as the `.ok` of
the core). -/
def sendStep (st : Option Client) (tr : List SdkCall) (conversation : Conversation)
    (message : String) : Except String String × Option Client × List SdkCall :=
  match conversation.sendFn message with
  | .error e => (.error e, st, tr ++ [SdkCall.send conversation.convId message])
  | .ok mid => (.ok mid, st, tr ++ [SdkCall.send conversation.convId message])

/-- The `if (!conversation)` branch: capability check (throwing
"Address ... cannot receive XMTP messages" when the map lookup is falsy), then
`newDm` (whose failure is re-thrown wrapped), then the send. -/
def noConversationBranch (w : World) (cl : Client) (st : Option Client)
    (recipientAddress message : String) :
    Except String String × Option Client × List SdkCall :=
  match w.canMessage (jsToLower recipientAddress) with
  | .error e => (.error e, st, [SdkCall.canMsg (jsToLower recipientAddress)])
  | .ok canReceive =>
    if ((canReceive.lookup (jsToLower recipientAddress)).getD false) = false then
      (.error ("Address " ++ recipientAddress ++ " cannot receive XMTP messages"), st,
       [SdkCall.canMsg (jsToLower recipientAddress)])
    else
      match cl.newDm recipientAddress with
      | .error e =>
        (.error ("Cannot create conversation with " ++ recipientAddress ++
           ". They may need to be active on XMTP first. Original error: " ++ e), st,
         [SdkCall.canMsg (jsToLower recipientAddress), SdkCall.newDm recipientAddress])
      | .ok conversation =>
        sendStep st [SdkCall.canMsg (jsToLower recipientAddress), SdkCall.newDm recipientAddress]
          conversation message

/-- The body of `sendMessage` up to (not including) its top-level `catch`:
initialize, sync, resolve an existing conversation, otherwise run the
capability-check / creation branch, then send.  (The `if (!this.client) throw`
guard after a successful `initializeClient` is unreachable and elided.) -/
def sendMessageCore (w : World) (cached : Option Client) (recipientAddress message : String) :
    Except String String × Option Client × List SdkCall :=
  match initializeClient w cached with
  | (.error e, st, _) => (.error e, st, [])
  | (.ok cl, st, _) =>
    match cl.syncConversations with
    | .error e => (.error e, st, [])
    | .ok _ =>
      let r := getInboxIdFromAddress w st recipientAddress
      match resolveConversation cl r.1 with
      | .error e => (.error e, r.2, [])
      | .ok (some conversation) => sendStep r.2 [] conversation message
      | .ok none => noConversationBranch w cl r.2 recipientAddress message

/-- `sendMessage(recipientAddress, message)`: the top-level `try/catch`
converts any thrown exception into `{success: false, error}` and the success
path returns `{success: true, messageId}`. -/
def sendMessage (w : World) (cached : Option Client) (recipientAddress message : String) :
    RelayResult × Option Client × List SdkCall :=
  match sendMessageCore w cached recipientAddress message with
  | (.ok mid, st, tr) => ({ success := true, messageId := some mid, error := none }, st, tr)
  | (.error e, st, tr) => ({ success := false, messageId := none, error := some e }, st, tr)

/-! ## General lemmas about the embedding -/

/-- Appending anything to a string keeps the string as a prefix in the JS
`startsWith` sense. -/
theorem jsStartsWith_append_self (p s : String) : jsStartsWith (p ++ s) p = true := by
  unfold jsStartsWith
  rw [String.data_append, List.isPrefixOf_iff_prefix]
  exact List.prefix_append _ _

/-- The trace of `sendMessage` is the trace of its body: the top-level `catch`
adds no SDK call. -/
theorem sendMessage_trace_eq (w : World) (cached : Option Client) (a m : String) :
    (sendMessage w cached a m).2.2 = (sendMessageCore w cached a m).2.2 := by
  unfold sendMessage
  rcases h : sendMessageCore w cached a m with ⟨r, st, tr⟩
  cases r <;> rfl

/-- `getInboxIdFromAddress` leaves an already-populated client cache as is. -/
theorem getInboxIdFromAddress_state (w : World) (cl : Client) (a : String) :
    (getInboxIdFromAddress w (some cl) a).2 = some cl := by
  unfold getInboxIdFromAddress getInboxIdFromAddressCore initializeClient
  rcases h : cl.listConversations with e | convs
  · simp [h]
  · rcases h2 : scanConversations cl a convs with e2 | r <;> simp [h, h2]

/-- Whatever the capability-check / creation branch does, it always performs
the capability check on the lowercased recipient address. -/
theorem canMsg_mem_noConversationBranch (w : World) (cl : Client) (st : Option Client)
    (recipientAddress message : String) :
    SdkCall.canMsg (jsToLower recipientAddress) ∈
      (noConversationBranch w cl st recipientAddress message).2.2 := by
  unfold noConversationBranch
  cases w.canMessage (jsToLower recipientAddress) with
  | error e => simp
  | ok canReceive =>
    by_cases h : ((canReceive.lookup (jsToLower recipientAddress)).getD false) = false
    · simp [h]
    · simp only [if_neg h]
      cases cl.newDm recipientAddress with
      | error e => simp
      | ok conversation =>
        unfold sendStep
        rcases hs : conversation.sendFn message with e | mid <;> simp [hs]

/-! ## Characterizing the resolution scan -/

/-- The member's inbox-state fetch succeeds. -/
def memberOk (cl : Client) (m : Member) : Prop :=
  ∃ sts, cl.inboxStateFromInboxIds1 m.inboxId = .ok sts

/-- The member's inbox-state fetch succeeds and its first inbox state carries
an identifier equal (case-insensitively) to the address. -/
def memberHit (cl : Client) (address : String) (m : Member) : Prop :=
  ∃ sts, cl.inboxStateFromInboxIds1 m.inboxId = .ok sts ∧ stateMatches address sts = true

/-- Every member of the conversation has a fetchable inbox state. -/
def convOk (cl : Client) (c : Conversation) : Prop :=
  ∀ m ∈ c.members, memberOk cl m

/-- Some member of the conversation matches the address. -/
def convHit (cl : Client) (address : String) (c : Conversation) : Prop :=
  ∃ m ∈ c.members, memberHit cl address m

/-- A member scan over hit-free members returns no inbox id. -/
theorem scanMembers_eq_none (cl : Client) (address : String) (ms : List Member)
    (hok : ∀ m ∈ ms, memberOk cl m) (hmiss : ∀ m ∈ ms, ¬ memberHit cl address m) :
    scanMembers cl address ms = .ok none := by
  induction ms with
  | nil => rfl
  | cons m rest ih =>
    obtain ⟨sts, hsts⟩ := hok m (List.mem_cons_self m rest)
    have hm : stateMatches address sts = false := by
      by_contra hcon
      exact hmiss m (List.mem_cons_self m rest)
        ⟨sts, hsts, by revert hcon; cases stateMatches address sts <;> simp⟩
    unfold scanMembers
    simp only [hsts]
    rw [if_neg (by simp [hm])]
    exact ih (fun x hx => hok x (List.mem_cons_of_mem m hx))
      (fun x hx => hmiss x (List.mem_cons_of_mem m hx))

/-- A member scan over members that all fetch successfully, at least one of
which matches, and whose matching members all carry the inbox id `ibx`,
returns `ibx`. -/
theorem scanMembers_finds (cl : Client) (address ibx : String) (ms : List Member)
    (hok : ∀ m ∈ ms, memberOk cl m)
    (hex : ∃ m ∈ ms, memberHit cl address m)
    (huniq : ∀ m ∈ ms, memberHit cl address m → m.inboxId = ibx) :
    scanMembers cl address ms = .ok (some ibx) := by
  induction ms with
  | nil => obtain ⟨m, hm, _⟩ := hex; exact absurd hm (List.not_mem_nil m)
  | cons m rest ih =>
    obtain ⟨sts, hsts⟩ := hok m (List.mem_cons_self m rest)
    by_cases hmatch : stateMatches address sts = true
    · have heq : m.inboxId = ibx :=
        huniq m (List.mem_cons_self m rest) ⟨sts, hsts, hmatch⟩
      unfold scanMembers
      simp only [hsts]
      rw [if_pos hmatch, heq]
    · have hmhead : ¬ memberHit cl address m := by
        rintro ⟨sts2, hsts2, hmatch2⟩
        rw [hsts] at hsts2
        injection hsts2 with hinj
        exact hmatch (hinj ▸ hmatch2)
      obtain ⟨m2, hm2, hhit⟩ := hex
      rcases List.mem_cons.mp hm2 with rfl | hm2rest
      · exact absurd hhit hmhead
      unfold scanMembers
      simp only [hsts]
      rw [if_neg hmatch]
      exact ih (fun x hx => hok x (List.mem_cons_of_mem m hx))
        ⟨m2, hm2rest, hhit⟩
        (fun x hx h => huniq x (List.mem_cons_of_mem m hx) h)

/-- The conversation scan, under the same conditions applied conversation-wise,
returns `ibx`. -/
theorem scanConversations_finds (cl : Client) (address ibx : String)
    (convs : List Conversation)
    (hok : ∀ c ∈ convs, convOk cl c)
    (hex : ∃ c ∈ convs, convHit cl address c)
    (huniq : ∀ c ∈ convs, ∀ m ∈ c.members, memberHit cl address m → m.inboxId = ibx) :
    scanConversations cl address convs = .ok (some ibx) := by
  induction convs with
  | nil => obtain ⟨c, hc, _⟩ := hex; exact absurd hc (List.not_mem_nil c)
  | cons c rest ih =>
    by_cases hc : convHit cl address c
    · have hfound : scanMembers cl address c.members = .ok (some ibx) :=
        scanMembers_finds cl address ibx c.members
          (hok c (List.mem_cons_self c rest)) hc
          (fun m hm h => huniq c (List.mem_cons_self c rest) m hm h)
      unfold scanConversations
      rw [hfound]
    · have hnone : scanMembers cl address c.members = .ok none :=
        scanMembers_eq_none cl address c.members
          (hok c (List.mem_cons_self c rest))
          (fun m hm h => hc ⟨m, hm, h⟩)
      obtain ⟨c2, hc2, hhit⟩ := hex
      rcases List.mem_cons.mp hc2 with rfl | hc2rest
      · exact absurd hhit hc
      unfold scanConversations
      rw [hnone]
      exact ih (fun x hx => hok x (List.mem_cons_of_mem c hx))
        ⟨c2, hc2rest, hhit⟩
        (fun x hx m hm h => huniq x (List.mem_cons_of_mem c hx) m hm h)

/-- `getInboxIdFromAddress` on a populated cache, with a successfully listed
conversation set satisfying the scan conditions, finds `ibx`. -/
theorem getInboxIdFromAddress_finds (w : World) (cl : Client) (address ibx : String)
    (convs : List Conversation)
    (hlist : cl.listConversations = .ok convs)
    (hok : ∀ c ∈ convs, convOk cl c)
    (hex : ∃ c ∈ convs, convHit cl address c)
    (huniq : ∀ c ∈ convs, ∀ m ∈ c.members, memberHit cl address m → m.inboxId = ibx) :
    getInboxIdFromAddress w (some cl) address = (some ibx, some cl) := by
  unfold getInboxIdFromAddress getInboxIdFromAddressCore initializeClient
  simp only [hlist, scanConversations_finds cl address ibx convs hok hex huniq]

/-! ## Claim theorems -/

/-- Claim C1 (refuted by the code): the per-message handler of the bus listener
never invokes the relay pipeline, whatever the parse outcome — it only logs.
In particular, on the failing input (a payload that parses successfully) no
`relay` action is performed, contradicting the claim that `sendMessage` is
invoked with the parsed pair. -/
theorem handleMessage_never_relays (parseJson : String → Except String EthereumMessage)
    (stringify : EthereumMessage → String) (receivedAt message channel : String) :
    (handleMessage parseJson stringify receivedAt message channel).all
      (fun a => !a.isRelay) = true := by
  unfold handleMessage
  cases parseJson message <;> simp [ListenerAction.isRelay]

/-- Claim C2 (amended): `sendMessage` never raises: any exception thrown in its
body is caught and returned as `{success: false, error: e}` where `e` is the
thrown exception's message — which is non-empty exactly when that message is,
not unconditionally. -/
theorem sendMessage_never_raises (w : World) (cached : Option Client)
    (recipientAddress message e : String) (st : Option Client) (tr : List SdkCall)
    (h : sendMessageCore w cached recipientAddress message = (.error e, st, tr)) :
    sendMessage w cached recipientAddress message =
      ({ success := false, messageId := none, error := some e }, st, tr) := by
  simp [sendMessage, h]

/-- World for the C2 witness: client construction itself rejects. -/
def c2World : World :=
  { createClient := .error "boom", canMessage := fun _ => .ok [] }

/-- Claim C2 witness: in a world where client construction rejects with
"boom", the pipeline body throws the wrapped initialization error and
`sendMessage` returns it as a failure result instead of raising. -/
theorem sendMessage_never_raises_witness :
    sendMessageCore c2World none "0xabc" "hi" =
      (.error "Failed to initialize XMTP client: boom", none, []) ∧
    sendMessage c2World none "0xabc" "hi" =
      ({ success := false, messageId := none,
         error := some "Failed to initialize XMTP client: boom" }, none, []) :=
  ⟨rfl, sendMessage_never_raises c2World none "0xabc" "hi"
    "Failed to initialize XMTP client: boom" none [] rfl⟩

/-- Conversation for the C2 counterexample: its send rejects with an
empty-message exception. -/
def c2xConv : Conversation :=
  { convId := "dm-new", members := [], sendFn := fun _ => .error "" }

/-- Client for the C2 counterexample. -/
def c2xClient : Client :=
  { syncConversations := .ok ()
    listConversations := .ok []
    inboxStateFromInboxIds1 := fun _ => .ok []
    getDmByInboxId := fun _ => .ok none
    newDm := fun _ => .ok c2xConv }

/-- World for the C2 counterexample. -/
def c2xWorld : World :=
  { createClient := .ok c2xClient
    canMessage := fun _ => .ok [("0xabc", true)] }

/-- Claim C2 counterexample: when the underlying `conversation.send` rejects
with an exception whose message is the empty string, `sendMessage` returns
`{success: false, error: ""}` — an empty error string, so the error is not
always a non-empty string as claimed. -/
theorem sendMessage_empty_error_possible :
    (sendMessage c2xWorld none "0xABC" "hi").1 =
      { success := false, messageId := none, error := some "" } ∧
    ("" : String).length = 0 :=
  ⟨rfl, rfl⟩

/-- Claim C3: every `RelayResult` returned by `sendMessage` has exactly one of
its optional fields populated, matching the success flag: `messageId` is
present iff `success` is true, and `error` is present iff `success` is
false. -/
theorem sendMessage_result_exactly_one (w : World) (cached : Option Client)
    (recipientAddress message : String) :
    ((sendMessage w cached recipientAddress message).1.messageId.isSome
        = (sendMessage w cached recipientAddress message).1.success) ∧
    ((sendMessage w cached recipientAddress message).1.error.isSome
        = !(sendMessage w cached recipientAddress message).1.success) := by
  unfold sendMessage
  rcases h : sendMessageCore w cached recipientAddress message with ⟨r, st, tr⟩
  cases r <;> simp

/-- Claim C7: for every raw private key without a "0x" mark at the front, the
identity produced by the signer equals the one produced for the same key with
"0x" prepended, and the returned address is the lowercase form of the derived
account address. -/
theorem createSigner_identity_invariant (privToAddr : String → String) (key : String)
    (h : jsStartsWith key "0x" = false) :
    (createSigner privToAddr key).getIdentifier
        = (createSigner privToAddr ("0x" ++ key)).getIdentifier ∧
    (createSigner privToAddr key).getIdentifier.identifier
        = jsToLower (privToAddr ("0x" ++ key)) := by
  unfold createSigner
  rw [h, jsStartsWith_append_self]
  simp

/-- Claim C7 witness: the invariant at the concrete raw key "ab" and a concrete
address derivation. -/
theorem createSigner_identity_invariant_witness :
    jsStartsWith "ab" "0x" = false ∧
    (createSigner (fun s => "A" ++ s) "ab").getIdentifier
        = (createSigner (fun s => "A" ++ s) ("0x" ++ "ab")).getIdentifier :=
  ⟨by decide, (createSigner_identity_invariant (fun s => "A" ++ s) "ab" (by decide)).1⟩

/-- Claim C9: if any required key is still falsy after the fallback pass, the
resolver emits exactly the still-missing key names and terminates with
non-zero status (modelled as `.error` carrying the emitted list); otherwise it
returns the mapping of every required key to its (truthy) value and does not
terminate. -/
theorem validateEnvironment_spec (vars : List String) (env : Env) (envFile : Option String) :
    (stillMissingKeys vars env envFile ≠ [] →
      validateEnvironment vars env envFile = .error (stillMissingKeys vars env envFile)) ∧
    (stillMissingKeys vars env envFile = [] →
      validateEnvironment vars env envFile =
        .ok (vars.map (fun k => (k, backfilledEnv vars env envFile k))) ∧
      ∀ k ∈ vars, envTruthy (backfilledEnv vars env envFile k) = true) := by
  constructor
  · intro hne
    unfold validateEnvironment
    rw [if_neg]
    · rfl
    · unfold stillMissingKeys at hne
      simpa [List.isEmpty_iff] using hne
  · intro heq
    unfold stillMissingKeys at heq
    constructor
    · unfold validateEnvironment
      rw [if_pos]
      simp [List.isEmpty_iff, heq]
    · intro k hk
      have h := List.filter_eq_nil_iff.mp heq k hk
      simpa using h

/-- Environment for the C9 witness: only XMTP_ENV is set in the process
environment. -/
def c9Env : Env := fun k => if k == "XMTP_ENV" then some "dev" else none

/-- Fallback file contents for the C9 witness. -/
def c9File : String := "PRIVATE_KEY=abc\n# comment\nXMTP_DB_ENCRYPTION_KEY=00ff\n"

/-- The required keys of the XMTPService constructor. -/
def c9Vars : List String := ["PRIVATE_KEY", "XMTP_DB_ENCRYPTION_KEY", "XMTP_ENV"]

/-- Claim C9 witness: with two keys back-filled from the fallback file nothing
is missing, and the resolver returns the full mapping. -/
theorem validateEnvironment_spec_witness :
    stillMissingKeys c9Vars c9Env (some c9File) = [] ∧
    validateEnvironment c9Vars c9Env (some c9File) =
      .ok (c9Vars.map (fun k => (k, backfilledEnv c9Vars c9Env (some c9File) k))) :=
  ⟨by decide, ((validateEnvironment_spec c9Vars c9Env (some c9File)).2 (by decide)).1⟩

/-- Claim C4: when some known conversation has a member whose identifiers
match the recipient address case-insensitively, every matching member resolves
to the inbox id `ibx` (the network maps an address to at most one inbox), the
scan steps succeed, and a DM keyed by `ibx` exists, then `sendMessage` uses
that conversation: the trace holds only the send call (no capability check, no
creation), and a successful send yields `{success: true, messageId}`. -/
theorem sendMessage_uses_existing_conversation
    (w : World) (cached : Option Client) (cl : Client) (k : Nat)
    (recipientAddress message ibx mid : String)
    (convs : List Conversation) (conversation : Conversation)
    (hinit : initializeClient w cached = (.ok cl, some cl, k))
    (hsync : cl.syncConversations = .ok ())
    (hlist : cl.listConversations = .ok convs)
    (hok : ∀ c ∈ convs, convOk cl c)
    (hex : ∃ c ∈ convs, convHit cl recipientAddress c)
    (huniq : ∀ c ∈ convs, ∀ m ∈ c.members, memberHit cl recipientAddress m → m.inboxId = ibx)
    (hibx : ibx ≠ "")
    (hdm : cl.getDmByInboxId ibx = .ok (some conversation))
    (hsend : conversation.sendFn message = .ok mid) :
    sendMessage w cached recipientAddress message =
      ({ success := true, messageId := some mid, error := none }, some cl,
       [SdkCall.send conversation.convId message]) := by
  have hres : getInboxIdFromAddress w (some cl) recipientAddress = (some ibx, some cl) :=
    getInboxIdFromAddress_finds w cl recipientAddress ibx convs hlist hok hex huniq
  unfold sendMessage sendMessageCore
  simp only [hinit, hsync, hres, resolveConversation]
  rw [if_neg (by simp [hibx])]
  simp only [hdm]
  unfold sendStep
  simp only [hsend]
  simp

/-- Conversation for the C4 witness. -/
def c4Conv : Conversation :=
  { convId := "dm-1", members := [{ inboxId := "inbox-1" }], sendFn := fun _ => .ok "msg-42" }

/-- Client for the C4 witness: one conversation whose sole member carries the
identifier "0xAbC", with a DM keyed by its inbox id. -/
def c4Client : Client :=
  { syncConversations := .ok ()
    listConversations := .ok [c4Conv]
    inboxStateFromInboxIds1 := fun i =>
      if i == "inbox-1" then .ok [{ identifiers := [{ identifier := "0xAbC" }] }] else .ok []
    getDmByInboxId := fun i => if i == "inbox-1" then .ok (some c4Conv) else .ok none
    newDm := fun _ => .error "unused" }

/-- World for the C4 witness. -/
def c4World : World := { createClient := .ok c4Client, canMessage := fun _ => .ok [] }

/-- Claim C4 witness: sending to "0xABC" (a case variant of the stored
identifier) reuses the existing DM, the trace holds only the send call. -/
theorem sendMessage_uses_existing_conversation_witness :
    sendMessage c4World (some c4Client) "0xABC" "hi" =
      ({ success := true, messageId := some "msg-42", error := none }, some c4Client,
       [SdkCall.send "dm-1" "hi"]) :=
  sendMessage_uses_existing_conversation c4World (some c4Client) c4Client 0
    "0xABC" "hi" "inbox-1" "msg-42" [c4Conv] c4Conv rfl rfl rfl
    (by
      intro c hc m hm
      simp only [List.mem_singleton] at hc
      subst hc
      simp only [c4Conv, List.mem_singleton] at hm
      subst hm
      exact ⟨_, rfl⟩)
    ⟨c4Conv, List.mem_singleton.mpr rfl,
      ⟨{ inboxId := "inbox-1" }, by simp [c4Conv], ⟨_, rfl, by decide⟩⟩⟩
    (by
      intro c hc m hm hhit
      simp only [List.mem_singleton] at hc
      subst hc
      simp only [c4Conv, List.mem_singleton] at hm
      subst hm
      rfl)
    (by decide) rfl rfl

/-- Claim C5: with no discoverable existing one-to-one conversation and a
capability check reporting the address cannot receive, `sendMessage` fails
with an error containing the recipient address, and the trace holds only the
capability check — no creation call and no send call. -/
theorem sendMessage_cannot_receive
    (w : World) (cached : Option Client) (cl : Client) (k : Nat)
    (recipientAddress message : String) (cmap : List (String × Bool))
    (hinit : initializeClient w cached = (.ok cl, some cl, k))
    (hsync : cl.syncConversations = .ok ())
    (hres : resolveConversation cl
        (getInboxIdFromAddress w (some cl) recipientAddress).1 = .ok none)
    (hcan : w.canMessage (jsToLower recipientAddress) = .ok cmap)
    (hfalse : (cmap.lookup (jsToLower recipientAddress)).getD false = false) :
    sendMessage w cached recipientAddress message =
      ({ success := false, messageId := none,
         error := some ("Address " ++ recipientAddress ++ " cannot receive XMTP messages") },
       some cl, [SdkCall.canMsg (jsToLower recipientAddress)]) ∧
    ∃ pre post, "Address " ++ recipientAddress ++ " cannot receive XMTP messages"
        = pre ++ recipientAddress ++ post := by
  constructor
  · unfold sendMessage sendMessageCore
    simp only [hinit, hsync, hres, getInboxIdFromAddress_state w cl recipientAddress]
    unfold noConversationBranch
    simp only [hcan]
    rw [if_pos hfalse]
  · exact ⟨"Address ", " cannot receive XMTP messages", rfl⟩

/-- Client for the C5 witness: no conversations at all. -/
def c5Client : Client :=
  { syncConversations := .ok ()
    listConversations := .ok []
    inboxStateFromInboxIds1 := fun _ => .ok []
    getDmByInboxId := fun _ => .ok none
    newDm := fun _ => .error "unused" }

/-- World for the C5 witness: the capability map reports the address cannot
receive messages. -/
def c5World : World :=
  { createClient := .ok c5Client, canMessage := fun _ => .ok [("0xdead", false)] }

/-- Claim C5 witness: the failure result and capability-check-only trace at a
concrete unreachable address. -/
theorem sendMessage_cannot_receive_witness :
    sendMessage c5World (some c5Client) "0xDEAD" "hi" =
      ({ success := false, messageId := none,
         error := some ("Address " ++ "0xDEAD" ++ " cannot receive XMTP messages") },
       some c5Client, [SdkCall.canMsg (jsToLower "0xDEAD")]) :=
  (sendMessage_cannot_receive c5World (some c5Client) c5Client 0 "0xDEAD" "hi"
    [("0xdead", false)] rfl rfl rfl rfl rfl).1

/-- Claim C6: with no discoverable existing one-to-one conversation and a
capability check reporting the address can receive, `sendMessage` attempts
creation from the raw address: a creation failure is returned as a failure
whose error wraps the underlying message, and a creation success proceeds to
the send through the new conversation. -/
theorem sendMessage_creates_when_capable
    (w : World) (cached : Option Client) (cl : Client) (k : Nat)
    (recipientAddress message : String) (cmap : List (String × Bool))
    (hinit : initializeClient w cached = (.ok cl, some cl, k))
    (hsync : cl.syncConversations = .ok ())
    (hres : resolveConversation cl
        (getInboxIdFromAddress w (some cl) recipientAddress).1 = .ok none)
    (hcan : w.canMessage (jsToLower recipientAddress) = .ok cmap)
    (htrue : (cmap.lookup (jsToLower recipientAddress)).getD false = true) :
    (∀ e, cl.newDm recipientAddress = .error e →
      sendMessage w cached recipientAddress message =
        ({ success := false, messageId := none,
           error := some ("Cannot create conversation with " ++ recipientAddress ++
             ". They may need to be active on XMTP first. Original error: " ++ e) },
         some cl,
         [SdkCall.canMsg (jsToLower recipientAddress), SdkCall.newDm recipientAddress]) ∧
      ∃ pre, "Cannot create conversation with " ++ recipientAddress ++
          ". They may need to be active on XMTP first. Original error: " ++ e = pre ++ e) ∧
    (∀ nc, cl.newDm recipientAddress = .ok nc →
      (sendMessage w cached recipientAddress message).2.2 =
        [SdkCall.canMsg (jsToLower recipientAddress), SdkCall.newDm recipientAddress,
         SdkCall.send nc.convId message]) := by
  constructor
  · intro e hcreate
    constructor
    · unfold sendMessage sendMessageCore
      simp only [hinit, hsync, hres, getInboxIdFromAddress_state w cl recipientAddress]
      unfold noConversationBranch
      simp only [hcan]
      rw [if_neg (by simp [htrue])]
      simp only [hcreate]
    · exact ⟨"Cannot create conversation with " ++ recipientAddress ++
        ". They may need to be active on XMTP first. Original error: ", rfl⟩
  · intro nc hcreate
    rw [sendMessage_trace_eq]
    unfold sendMessageCore
    simp only [hinit, hsync, hres, getInboxIdFromAddress_state w cl recipientAddress]
    unfold noConversationBranch
    simp only [hcan]
    rw [if_neg (by simp [htrue])]
    simp only [hcreate]
    unfold sendStep
    rcases hs : nc.sendFn message with e | mid <;> simp [hs]

/-- Conversation created by `newDm` in the C6 witness. -/
def c6NewConv : Conversation :=
  { convId := "dm-created", members := [], sendFn := fun _ => .ok "mid-7" }

/-- Client for the C6 witness. -/
def c6Client : Client :=
  { syncConversations := .ok ()
    listConversations := .ok []
    inboxStateFromInboxIds1 := fun _ => .ok []
    getDmByInboxId := fun _ => .ok none
    newDm := fun _ => .ok c6NewConv }

/-- World for the C6 witness: the capability map reports the address can
receive messages. -/
def c6World : World :=
  { createClient := .ok c6Client, canMessage := fun _ => .ok [("0xcafe", true)] }

/-- Claim C6 witness: after a successful creation the pipeline performs the
capability check, the creation, and the send through the new conversation. -/
theorem sendMessage_creates_when_capable_witness :
    (sendMessage c6World (some c6Client) "0xCAFE" "yo").2.2 =
      [SdkCall.canMsg (jsToLower "0xCAFE"), SdkCall.newDm "0xCAFE",
       SdkCall.send "dm-created" "yo"] :=
  (sendMessage_creates_when_capable c6World (some c6Client) c6Client 0 "0xCAFE" "yo"
    [("0xcafe", true)] rfl rfl rfl rfl rfl).2 c6NewConv rfl

/-- Claim C10: an exception anywhere inside the resolution scan is caught by
`getInboxIdFromAddress`, which returns `null`; `sendMessage` then treats the
recipient as having no discoverable conversation and proceeds to the
capability check rather than returning a resolution error. -/
theorem resolution_failure_nonfatal
    (w : World) (cached : Option Client) (cl : Client) (k : Nat)
    (address message e : String) (st2 : Option Client)
    (hinit : initializeClient w cached = (.ok cl, some cl, k))
    (hsync : cl.syncConversations = .ok ())
    (hcore : getInboxIdFromAddressCore w (some cl) address = (.error e, st2)) :
    (getInboxIdFromAddress w (some cl) address).1 = none ∧
    SdkCall.canMsg (jsToLower address) ∈ (sendMessage w cached address message).2.2 := by
  have h1 : getInboxIdFromAddress w (some cl) address = (none, st2) := by
    unfold getInboxIdFromAddress
    rw [hcore]
  constructor
  · rw [h1]
  · rw [sendMessage_trace_eq]
    unfold sendMessageCore
    simp only [hinit, hsync, h1, resolveConversation]
    exact canMsg_mem_noConversationBranch w cl st2 address message

/-- Client for the C10 witness: fetching any inbox state throws. -/
def c10Client : Client :=
  { syncConversations := .ok ()
    listConversations := .ok [{ convId := "c-a", members := [{ inboxId := "i-1" }],
                                sendFn := fun _ => .ok "m" }]
    inboxStateFromInboxIds1 := fun _ => .error "state fetch failed"
    getDmByInboxId := fun _ => .ok none
    newDm := fun _ => .error "unused" }

/-- World for the C10 witness. -/
def c10World : World := { createClient := .ok c10Client, canMessage := fun _ => .ok [] }

/-- Claim C10 witness: with a throwing inbox-state fetch, resolution yields
`null` and the pipeline still reaches the capability check. -/
theorem resolution_failure_nonfatal_witness :
    getInboxIdFromAddressCore c10World (some c10Client) "0xA" =
      (.error "state fetch failed", some c10Client) ∧
    (getInboxIdFromAddress c10World (some c10Client) "0xA").1 = none ∧
    SdkCall.canMsg (jsToLower "0xA") ∈
      (sendMessage c10World (some c10Client) "0xA" "m").2.2 :=
  ⟨rfl, resolution_failure_nonfatal c10World (some c10Client) c10Client 0 "0xA" "m"
    "state fetch failed" (some c10Client) rfl rfl rfl⟩

/-- Claim C8: after a successful first `initializeClient` on an empty cache,
the constructor has run exactly once and every subsequent call on the now
populated cache returns the cached client with zero constructor invocations. -/
theorem initializeClient_constructs_once (w : World) (cl : Client)
    (h : w.createClient = .ok cl) :
    initializeClient w none = (.ok cl, some cl, 1) ∧
    ∀ c : Client, initializeClient w (some c) = (.ok c, some c, 0) := by
  constructor
  · simp [initializeClient, h]
  · intro c; rfl

/-- Client for the C8 witness. -/
def c8Client : Client :=
  { syncConversations := .ok ()
    listConversations := .ok []
    inboxStateFromInboxIds1 := fun _ => .ok []
    getDmByInboxId := fun _ => .ok none
    newDm := fun _ => .error "unused" }

/-- World for the C8 witness. -/
def c8World : World :=
  { createClient := .ok c8Client, canMessage := fun _ => .ok [] }

/-- Claim C8 witness: the idempotence at a concrete world. -/
theorem initializeClient_constructs_once_witness :
    c8World.createClient = .ok c8Client ∧
    initializeClient c8World none = (.ok c8Client, some c8Client, 1) ∧
    initializeClient c8World (some c8Client) = (.ok c8Client, some c8Client, 0) :=
  ⟨rfl, (initializeClient_constructs_once c8World c8Client rfl).1,
    (initializeClient_constructs_once c8World c8Client rfl).2 c8Client⟩

end Xmtp
